import Mathlib

set_option autoImplicit false

namespace Idb

/-- Untyped host-language values, as far as the wrapper distinguishes them.
An error event (the argument delivered to an onerror handler) is a distinct
object from the error object carried by the failed request, so both are
represented, tagged by the identity of the underlying engine error. -/
inductive JsVal where
  | undef
  | num (n : Nat)
  | str (s : String)
  | fnVal (id : Nat)
  | errEvent (errorId : Nat)
  | errObj (errorId : Nat)
  | clientOf (dbId : Nat)
  deriving DecidableEq, Repr

/-- State of a host promise. A promise settles at most once: resolve and
reject are no-ops on a promise that is already settled. -/
inductive PState (α : Type) (ε : Type) where
  | pending
  | resolved (v : α)
  | rejected (e : ε)
  deriving DecidableEq, Repr

/-- Host semantics of calling resolve: settles a pending promise, does
nothing to a settled one. -/
def settleResolve {α ε : Type} (s : PState α ε) (v : α) : PState α ε :=
  match s with
  | .pending => .resolved v
  | s => s

/-- Host semantics of calling reject: settles a pending promise, does
nothing to a settled one. -/
def settleReject {α ε : Type} (s : PState α ε) (e : ε) : PState α ε :=
  match s with
  | .pending => .rejected e
  | s => s

/-- A storage request handle: result is the value the handle carries when its
success notification fires, and error is the value it carries when its
failure notification fires (request.result and request.error in the source). -/
structure Request (α ε : Type) where
  result : α
  error : ε

/-- Notifications a single-result request handle can deliver. -/
inductive ReqEv where
  | success
  | error
  deriving DecidableEq, Repr

/-- Embeds promisify of src/idb.js lines 22-27: onsuccess resolves with
request.result, onerror rejects with request.error, with no transformation
of either value. -/
def promisifyStep {α ε : Type} (request : Request α ε) (s : PState α ε) :
    ReqEv → PState α ε
  | .success => settleResolve s request.result
  | .error => settleReject s request.error

/-- State of the promise returned by promisify (variant 1) after the handle
has delivered the given sequence of notifications. -/
def promisifyRun {α ε : Type} (request : Request α ε) (evs : List ReqEv) :
    PState α ε :=
  evs.foldl (promisifyStep request) .pending

/-- Embeds promisify of the second module variant, src/unnamed/part_000
lines 191-196 (its body is textually identical to the first variant). -/
def promisifyStep2 {α ε : Type} (request : Request α ε) (s : PState α ε) :
    ReqEv → PState α ε
  | .success => settleResolve s request.result
  | .error => settleReject s request.error

/-- Outcome of synchronously invoking the upgrade callback fn. -/
inductive UpgradeOutcome where
  | ok
  | throws (exn : JsVal)
  deriving DecidableEq, Repr

/-- Notifications an open request can deliver. An error notification hands
the handler an error event object (JsVal.errEvent errorId) whose target
carries the error object (JsVal.errObj errorId); a success notification
carries the opened connection; an upgradeneeded notification runs the
callback, whose outcome is recorded; a dbError notification is an error
event reaching the db.onerror handler installed during the upgrade phase. -/
inductive OpenEv where
  | error (errorId : Nat)
  | success (dbId : Nat)
  | upgradeneeded (dbId : Nat) (fn : UpgradeOutcome)
  | dbError (errorId : Nat)
  deriving DecidableEq, Repr

/-- Embeds the handler wiring of idb.open, src/idb.js lines 95-107: onerror
rejects with the event object e itself (not with the error object the
request carries); onsuccess resolves with client(e.target.result);
onupgradeneeded invokes fn inside try and rejects with any exception it
throws; db.onerror installed during the upgrade phase rejects with the
event it receives. -/
def openStep (s : PState JsVal JsVal) : OpenEv → PState JsVal JsVal
  | .error errorId => settleReject s (.errEvent errorId)
  | .success dbId => settleResolve s (.clientOf dbId)
  | .upgradeneeded _ .ok => s
  | .upgradeneeded _ (.throws exn) => settleReject s exn
  | .dbError errorId => settleReject s (.errEvent errorId)

/-- State of the promise returned by idb.open (variant 1) after the open
request has delivered the given sequence of notifications. -/
def openRun (evs : List OpenEv) : PState JsVal JsVal :=
  evs.foldl openStep .pending

/-- Embeds the handler wiring of idb.open of the second module variant,
src/unnamed/part_000 lines 288-300 (textually identical handlers). -/
def openStep2 (s : PState JsVal JsVal) : OpenEv → PState JsVal JsVal
  | .error errorId => settleReject s (.errEvent errorId)
  | .success dbId => settleResolve s (.clientOf dbId)
  | .upgradeneeded _ .ok => s
  | .upgradeneeded _ (.throws exn) => settleReject s exn
  | .dbError errorId => settleReject s (.errEvent errorId)

theorem promisifyStep_settled {α ε : Type} (request : Request α ε)
    (s : PState α ε) (e : ReqEv) (hs : s ≠ .pending) :
    promisifyStep request s e = s := by
  cases s with
  | pending => exact absurd rfl hs
  | resolved v => cases e <;> rfl
  | rejected e0 => cases e <;> rfl

theorem openStep_settled (s : PState JsVal JsVal) (e : OpenEv)
    (hs : s ≠ .pending) : openStep s e = s := by
  cases s with
  | pending => exact absurd rfl hs
  | resolved v =>
    cases e with
    | upgradeneeded d o => cases o <;> rfl
    | _ => rfl
  | rejected e0 =>
    cases e with
    | upgradeneeded d o => cases o <;> rfl
    | _ => rfl

theorem foldl_settled {α ε σ : Type} (step : PState α ε → σ → PState α ε)
    (hstep : ∀ s e, s ≠ PState.pending → step s e = s)
    (s : PState α ε) (hs : s ≠ .pending) (evs : List σ) :
    evs.foldl step s = s := by
  induction evs with
  | nil => rfl
  | cons e rest ih => rw [List.foldl_cons, hstep s e hs]; exact ih

theorem openRun_append_of_pending (pre evs : List OpenEv)
    (h : openRun pre = .pending) : openRun (pre ++ evs) = openRun evs := by
  unfold openRun at h ⊢
  rw [List.foldl_append, h]

/-- C1: for every request handle, promisify resolves with exactly the
handle's result value when the success notification fires first, and rejects
with exactly the handle's error value when the failure notification fires
first, applying no transformation to either value. -/
theorem promisify_settles_with_handle_values {α ε : Type}
    (request : Request α ε) (evs : List ReqEv) :
    promisifyRun request (ReqEv.success :: evs) = .resolved request.result ∧
    promisifyRun request (ReqEv.error :: evs) = .rejected request.error := by
  constructor
  · unfold promisifyRun
    rw [List.foldl_cons]
    exact foldl_settled (promisifyStep request)
      (promisifyStep_settled request) _ (by simp [promisifyStep, settleResolve]) evs
  · unfold promisifyRun
    rw [List.foldl_cons]
    exact foldl_settled (promisifyStep request)
      (promisifyStep_settled request) _ (by simp [promisifyStep, settleReject]) evs

/-- C7: a promise produced by promisify or by open settles exactly once:
once a notification sequence has settled it, no further notifications, in
any order or multiplicity, change the settled outcome. -/
theorem wrapped_promise_settles_once :
    (∀ (α ε : Type) (request : Request α ε) (evs more : List ReqEv),
        promisifyRun request evs ≠ .pending →
        promisifyRun request (evs ++ more) = promisifyRun request evs) ∧
    (∀ (evs more : List OpenEv),
        openRun evs ≠ .pending →
        openRun (evs ++ more) = openRun evs) := by
  constructor
  · intro α ε request evs more h
    unfold promisifyRun at h ⊢
    rw [List.foldl_append]
    exact foldl_settled (promisifyStep request) (promisifyStep_settled request) _ h more
  · intro evs more h
    unfold openRun at h ⊢
    rw [List.foldl_append]
    exact foldl_settled openStep openStep_settled _ h more

theorem wrapped_promise_settles_once_witness :
    (promisifyRun (Request.mk 7 3 : Request Nat Nat) [ReqEv.success] ≠ .pending ∧
      promisifyRun (Request.mk 7 3 : Request Nat Nat) ([ReqEv.success] ++ [ReqEv.error]) =
        promisifyRun (Request.mk 7 3 : Request Nat Nat) [ReqEv.success]) ∧
    (openRun [OpenEv.error 5] ≠ .pending ∧
      openRun ([OpenEv.error 5] ++ [OpenEv.success 2]) = openRun [OpenEv.error 5]) :=
  ⟨⟨by decide, wrapped_promise_settles_once.1 Nat Nat (Request.mk 7 3) [ReqEv.success]
      [ReqEv.error] (by decide)⟩,
    ⟨by decide, wrapped_promise_settles_once.2 [OpenEv.error 5] [OpenEv.success 2] (by decide)⟩⟩

/-- C3 counterexample: in the concrete run in which the open request fires
its error notification carrying engine error 5, the returned promise is
rejected with the error event object delivered to the handler, and not with
the error object carried by the failed request, contrary to the claim. -/
theorem open_rejects_with_event_cex :
    openRun [OpenEv.error 5] = .rejected (JsVal.errEvent 5) ∧
    openRun [OpenEv.error 5] ≠ .rejected (JsVal.errObj 5) := by decide

/-- C3 amended: for every open call that reaches the Error state while the
promise is still pending, the promise rejects with the error event object
passed to the onerror handler (the event whose target carries the engine's
error object), not with the bare error object. -/
theorem open_error_rejects_with_event (pre : List OpenEv) (errorId : Nat)
    (evs : List OpenEv) (h : openRun pre = .pending) :
    openRun (pre ++ OpenEv.error errorId :: evs) = .rejected (JsVal.errEvent errorId) := by
  rw [openRun_append_of_pending pre _ h]
  unfold openRun
  rw [List.foldl_cons]
  exact foldl_settled openStep openStep_settled _ (by simp [openStep, settleReject]) evs

theorem open_error_rejects_with_event_witness :
    openRun [] = .pending ∧
    openRun ([] ++ OpenEv.error 5 :: [OpenEv.success 2]) = .rejected (JsVal.errEvent 5) :=
  ⟨by decide, open_error_rejects_with_event [] 5 [OpenEv.success 2] (by decide)⟩

/-- C6: for every open call in which the upgrade-needed phase is entered
while the promise is still pending and the upgrade callback throws, the
returned promise rejects with exactly the thrown exception. -/
theorem upgrade_callback_exception_rejects_open (pre : List OpenEv)
    (dbId : Nat) (exn : JsVal) (evs : List OpenEv)
    (h : openRun pre = .pending) :
    openRun (pre ++ OpenEv.upgradeneeded dbId (UpgradeOutcome.throws exn) :: evs) =
      .rejected exn := by
  rw [openRun_append_of_pending pre _ h]
  unfold openRun
  rw [List.foldl_cons]
  exact foldl_settled openStep openStep_settled _ (by simp [openStep, settleReject]) evs

theorem upgrade_callback_exception_rejects_open_witness :
    openRun [] = .pending ∧
    openRun ([] ++ OpenEv.upgradeneeded 1 (UpgradeOutcome.throws (JsVal.num 9)) :: [OpenEv.success 1]) =
      .rejected (JsVal.num 9) :=
  ⟨by decide, upgrade_callback_exception_rejects_open [] 1 (JsVal.num 9) [OpenEv.success 1] (by decide)⟩

/-- A record is a flat field map; field values and primary keys are numbers,
which is all the claims about records observe. -/
abbrev Rec := List (String × Nat)

/-- Field lookup along a key path in a record. -/
def findField : Rec → String → Option Nat
  | [], _ => none
  | (k, x) :: rest, path => if k = path then some x else findField rest path

/-- Modelled from the spec: a Record Collection of the host engine, an
unordered key-addressable set of records where each record has exactly one
primary key, either extracted from a configured field path or supplied
explicitly at insert time (spec section 3). -/
structure ObjectStore where
  keyPath : Option String
  data : List (Nat × Rec)
  deriving DecidableEq, Repr

/-- Modelled from the spec: the primary key of a write is the explicit key
when provided (the explicit key overrides, spec section 4.2), otherwise the
value extracted from the record at the configured field path. -/
def resolveKey (keyPath : Option String) (value : Rec) (key : Option Nat) :
    Option Nat :=
  match key with
  | some k => some k
  | none =>
    match keyPath with
    | some p => findField value p
    | none => none

/-- Errors the engine can report on a single store operation. -/
inductive EngErr where
  | constraintError
  | dataError
  deriving DecidableEq, Repr

def hasKey (data : List (Nat × Rec)) (k : Nat) : Bool :=
  data.any (fun p => p.1 == k)

def getRec : List (Nat × Rec) → Nat → Option Rec
  | [], _ => none
  | (k0, r) :: rest, k => if k0 = k then some r else getRec rest k

/-- Modelled from the spec: the engine add primitive, which fails with a
constraint violation when a record with the same primary key already exists
in the collection (spec sections 4.2 and 7) and otherwise stores the record
under the resolved key, reporting that key as the request result. -/
def storeAdd (st : ObjectStore) (value : Rec) (key : Option Nat) :
    Except EngErr (ObjectStore × Nat) :=
  match resolveKey st.keyPath value key with
  | none => .error .dataError
  | some k =>
    if hasKey st.data k then .error .constraintError
    else .ok (ObjectStore.mk st.keyPath ((k, value) :: st.data), k)

/-- Modelled from the spec: the engine put primitive, which never fails for
a duplicate primary key: it creates or overwrites (spec section 4.2). -/
def storePut (st : ObjectStore) (value : Rec) (key : Option Nat) :
    Except EngErr (ObjectStore × Nat) :=
  match resolveKey st.keyPath value key with
  | none => .error .dataError
  | some k =>
    .ok (ObjectStore.mk st.keyPath
      ((k, value) :: st.data.filter (fun p => ! (p.1 == k))), k)

/-- Embeds client.insert (src/idb.js lines 46-52) composed with the engine
model: a readwrite transaction scoped to the one collection issues add with
the value and the optional key, and promisify settles the returned promise
from the outcome of that single request. -/
def clientInsertRun (st : ObjectStore) (value : Rec) (key : Option Nat) :
    PState Nat EngErr × ObjectStore :=
  match storeAdd st value key with
  | .error e => (.rejected e, st)
  | .ok (st2, k) => (.resolved k, st2)

/-- Embeds client.update (src/idb.js lines 53-59) composed with the engine
model: identical to insert except that the request issued is put. -/
def clientUpdateRun (st : ObjectStore) (value : Rec) (key : Option Nat) :
    PState Nat EngErr × ObjectStore :=
  match storePut st value key with
  | .error e => (.rejected e, st)
  | .ok (st2, k) => (.resolved k, st2)

/-- C2: when a record with the same primary key already exists, insert
rejects while update with the same arguments resolves and overwrites the
existing record; when no such record exists, both resolve and create it. -/
theorem insert_rejects_duplicate_update_overwrites
    (st : ObjectStore) (value : Rec) (key : Option Nat) (k : Nat)
    (hk : resolveKey st.keyPath value key = some k) :
    (hasKey st.data k = true →
      (clientInsertRun st value key).1 = .rejected EngErr.constraintError ∧
      (clientUpdateRun st value key).1 = .resolved k ∧
      getRec (clientUpdateRun st value key).2.data k = some value) ∧
    (hasKey st.data k = false →
      (clientInsertRun st value key).1 = .resolved k ∧
      getRec (clientInsertRun st value key).2.data k = some value ∧
      (clientUpdateRun st value key).1 = .resolved k ∧
      getRec (clientUpdateRun st value key).2.data k = some value) := by
  constructor
  · intro hdup
    refine ⟨?_, ?_, ?_⟩
    · simp [clientInsertRun, storeAdd, hk, hdup]
    · simp [clientUpdateRun, storePut, hk]
    · simp [clientUpdateRun, storePut, hk, getRec]
  · intro hfresh
    refine ⟨?_, ?_, ?_, ?_⟩
    · simp [clientInsertRun, storeAdd, hk, hfresh]
    · simp [clientInsertRun, storeAdd, hk, hfresh, getRec]
    · simp [clientUpdateRun, storePut, hk]
    · simp [clientUpdateRun, storePut, hk, getRec]

theorem insert_rejects_duplicate_update_overwrites_witness :
    resolveKey (some "id") [("id", 1), ("x", 2)] none = some 1 ∧
    hasKey [(1, [("id", 1)])] 1 = true ∧
    (clientInsertRun (ObjectStore.mk (some "id") [(1, [("id", 1)])])
        [("id", 1), ("x", 2)] none).1 = .rejected EngErr.constraintError ∧
    (clientUpdateRun (ObjectStore.mk (some "id") [(1, [("id", 1)])])
        [("id", 1), ("x", 2)] none).1 = .resolved 1 ∧
    getRec (clientUpdateRun (ObjectStore.mk (some "id") [(1, [("id", 1)])])
        [("id", 1), ("x", 2)] none).2.data 1 = some [("id", 1), ("x", 2)] :=
  ⟨by decide, by decide,
    (insert_rejects_duplicate_update_overwrites
      (ObjectStore.mk (some "id") [(1, [("id", 1)])])
      [("id", 1), ("x", 2)] none 1 (by decide)).1 (by decide)⟩

/-- A host object as far as property mutation is concerned: a list of named
properties, with property values abstracted to identifiers, and a frozen
flag.  Modelled from the spec: freezing fixes the set of properties, so on a
frozen object adding, removing and reassigning a property all leave the
object unchanged (spec sections 4.2 and 9). -/
structure JsObj where
  props : List (String × Nat)
  frozen : Bool
  deriving DecidableEq, Repr

/-- Property mutations a caller could attempt on a facade object. -/
inductive MutOp where
  | setProp (name : String) (v : Nat)
  | defineProp (name : String) (v : Nat)
  | removeProp (name : String)
  deriving DecidableEq, Repr

def setPropRaw : List (String × Nat) → String → Nat → List (String × Nat)
  | [], n, v => [(n, v)]
  | (k, w) :: rest, n, v =>
    if k = n then (k, v) :: rest else (k, w) :: setPropRaw rest n v

def removePropRaw : List (String × Nat) → String → List (String × Nat)
  | [], _ => []
  | (k, w) :: rest, n => if k = n then rest else (k, w) :: removePropRaw rest n

/-- Modelled from the spec: applying one property mutation; on a frozen
object every mutation leaves the object unchanged. -/
def applyMut (o : JsObj) : MutOp → JsObj
  | .setProp n v => if o.frozen then o else JsObj.mk (setPropRaw o.props n v) o.frozen
  | .defineProp n v => if o.frozen then o else JsObj.mk (setPropRaw o.props n v) o.frozen
  | .removeProp n => if o.frozen then o else JsObj.mk (removePropRaw o.props n) o.frozen

def applyMuts (o : JsObj) (ops : List MutOp) : JsObj :=
  ops.foldl applyMut o

/-- Shape of the Connection Facade of src/idb.js lines 29-68: Object.freeze
of an object literal with these ten methods, in source order, the method
closures abstracted to distinct identifiers. -/
def clientObj1 : JsObj :=
  JsObj.mk
    [("select", 0), ("selectAll", 1), ("selectAllKeys", 2), ("selectIndex", 3),
      ("delete", 4), ("insert", 5), ("update", 6), ("clear", 7), ("count", 8),
      ("close", 9)] true

/-- Shape of the Upgrade Facade of src/idb.js lines 70-86. -/
def upgradeObj1 : JsObj :=
  JsObj.mk [("create", 0), ("delete", 1)] true

/-- Shape of the Connection Facade of the second variant,
src/unnamed/part_000 lines 198-252. -/
def clientObj2 : JsObj :=
  JsObj.mk
    [("clear", 0), ("close", 1), ("count", 2), ("delete", 3), ("select", 4),
      ("selectAll", 5), ("selectAllKeys", 6), ("selectIndex", 7), ("insert", 8),
      ("update", 9)] true

/-- Shape of the Upgrade Facade of the second variant,
src/unnamed/part_000 lines 254-272. -/
def upgradeObj2 : JsObj :=
  JsObj.mk [("create", 0), ("delete", 1)] true

theorem applyMuts_frozen (o : JsObj) (hf : o.frozen = true) (ops : List MutOp) :
    applyMuts o ops = o := by
  induction ops with
  | nil => rfl
  | cons op rest ih =>
    have hstep : applyMut o op = o := by cases op <;> simp [applyMut, hf]
    unfold applyMuts at ih ⊢
    rw [List.foldl_cons, hstep]
    exact ih

/-- C8: the Connection and Upgrade Facades of both module variants are
frozen at construction, so no sequence of property additions, removals or
reassignments changes their set of exposed operations. -/
theorem facades_structurally_immutable (ops : List MutOp) :
    applyMuts clientObj1 ops = clientObj1 ∧
    applyMuts upgradeObj1 ops = upgradeObj1 ∧
    applyMuts clientObj2 ops = clientObj2 ∧
    applyMuts upgradeObj2 ops = upgradeObj2 :=
  ⟨applyMuts_frozen clientObj1 rfl ops, applyMuts_frozen upgradeObj1 rfl ops,
    applyMuts_frozen clientObj2 rfl ops, applyMuts_frozen upgradeObj2 rfl ops⟩

/-- Transaction modes the wrapper requests. -/
inductive TxMode where
  | readonly
  | readwrite
  deriving DecidableEq, Repr

/-- A store operation exactly as the source issues it: JsVal.undef stands
for an argument the caller omitted, and for add and put the Option records
whether the one-argument or the two-argument overload was called (the
source branches on key being undefined). -/
inductive StoreOp where
  | get (key : JsVal)
  | getAll (query : JsVal) (cnt : JsVal)
  | getAllKeys (query : JsVal) (cnt : JsVal)
  | indexGet (index : JsVal) (key : JsVal)
  | add (value : JsVal) (key : Option JsVal)
  | put (value : JsVal) (key : Option JsVal)
  | del (key : JsVal)
  | clearOp
  | countOp (query : JsVal)
  deriving DecidableEq, Repr

/-- The engine call a client method makes: db.transaction(tables, mode)
.objectStore(store) followed by one store operation. -/
structure Call where
  tables : List JsVal
  mode : TxMode
  store : JsVal
  op : StoreOp
  deriving DecidableEq, Repr

/-- A synchronously thrown TypeError with its message. -/
inductive TypeErr where
  | typeError (msg : String)
  deriving DecidableEq, Repr

/-- Embeds assertName of src/unnamed/part_000 lines 185-189: throws a
TypeError unless the name is a non-empty string. -/
def assertName (name : JsVal) (label : String) : Except TypeErr Unit :=
  match name with
  | .str s =>
    if s = "" then .error (.typeError (label ++ " must be a non-empty string"))
    else .ok ()
  | _ => .error (.typeError (label ++ " must be a non-empty string"))

/-- Whether a value would pass assertName. -/
def isNonEmptyStr (v : JsVal) : Bool :=
  match v with
  | .str s => ! (s == "")
  | _ => false

/-- Embeds client.select of src/idb.js lines 31-33: no validation, the
engine call is made whatever the table name is. -/
def select1 (table key : JsVal) : Except TypeErr Call :=
  .ok (Call.mk [table] .readonly table (.get key))

/-- Embeds client.selectAll of src/idb.js lines 34-36. -/
def selectAll1 (table query cnt : JsVal) : Except TypeErr Call :=
  .ok (Call.mk [table] .readonly table (.getAll query cnt))

/-- Embeds client.selectAllKeys of src/idb.js lines 37-39. -/
def selectAllKeys1 (table query cnt : JsVal) : Except TypeErr Call :=
  .ok (Call.mk [table] .readonly table (.getAllKeys query cnt))

/-- Embeds client.selectIndex of src/idb.js lines 40-42. -/
def selectIndex1 (table index key : JsVal) : Except TypeErr Call :=
  .ok (Call.mk [table] .readonly table (.indexGet index key))

/-- Embeds client.delete of src/idb.js lines 43-45. -/
def delete1 (table key : JsVal) : Except TypeErr Call :=
  .ok (Call.mk [table] .readwrite table (.del key))

/-- Embeds client.insert of src/idb.js lines 46-52 at the call level. -/
def insert1 (table value key : JsVal) : Except TypeErr Call :=
  .ok (Call.mk [table] .readwrite table
    (if key = .undef then .add value none else .add value (some key)))

/-- Embeds client.update of src/idb.js lines 53-59 at the call level. -/
def update1 (table value key : JsVal) : Except TypeErr Call :=
  .ok (Call.mk [table] .readwrite table
    (if key = .undef then .put value none else .put value (some key)))

/-- Embeds client.clear of src/idb.js lines 60-62. -/
def clear1 (table : JsVal) : Except TypeErr Call :=
  .ok (Call.mk [table] .readwrite table .clearOp)

/-- Embeds client.count of src/idb.js lines 63-65. -/
def count1 (table query : JsVal) : Except TypeErr Call :=
  .ok (Call.mk [table] .readonly table (.countOp query))

/-- Embeds client.close of src/idb.js line 66: db.close() on the wrapped
connection, no transaction and no validation. -/
def close1 (db : JsVal) : Except TypeErr JsVal :=
  .ok db

/-- Embeds client.select of src/unnamed/part_000 lines 213-216: assertName
on the table name, then the same engine call as the first variant. -/
def select2 (table key : JsVal) : Except TypeErr Call :=
  match assertName table ("Table name") with
  | .error e => .error e
  | .ok _ => .ok (Call.mk [table] .readonly table (.get key))

/-- Embeds client.selectAll of src/unnamed/part_000 lines 217-220. -/
def selectAll2 (table query cnt : JsVal) : Except TypeErr Call :=
  match assertName table ("Table name") with
  | .error e => .error e
  | .ok _ => .ok (Call.mk [table] .readonly table (.getAll query cnt))

/-- Embeds client.selectAllKeys of src/unnamed/part_000 lines 221-224. -/
def selectAllKeys2 (table query cnt : JsVal) : Except TypeErr Call :=
  match assertName table ("Table name") with
  | .error e => .error e
  | .ok _ => .ok (Call.mk [table] .readonly table (.getAllKeys query cnt))

/-- Embeds client.selectIndex of src/unnamed/part_000 lines 225-228: only
the table name is validated; the index name is passed to the engine
unchecked. -/
def selectIndex2 (table index key : JsVal) : Except TypeErr Call :=
  match assertName table ("Table name") with
  | .error e => .error e
  | .ok _ => .ok (Call.mk [table] .readonly table (.indexGet index key))

/-- Embeds client.delete of src/unnamed/part_000 lines 209-212. -/
def delete2 (table key : JsVal) : Except TypeErr Call :=
  match assertName table ("Table name") with
  | .error e => .error e
  | .ok _ => .ok (Call.mk [table] .readwrite table (.del key))

/-- Embeds client.insert of src/unnamed/part_000 lines 229-239. -/
def insert2 (table value key : JsVal) : Except TypeErr Call :=
  match assertName table ("Table name") with
  | .error e => .error e
  | .ok _ =>
    .ok (Call.mk [table] .readwrite table
      (if key = .undef then .add value none else .add value (some key)))

/-- Embeds client.update of src/unnamed/part_000 lines 240-250. -/
def update2 (table value key : JsVal) : Except TypeErr Call :=
  match assertName table ("Table name") with
  | .error e => .error e
  | .ok _ =>
    .ok (Call.mk [table] .readwrite table
      (if key = .undef then .put value none else .put value (some key)))

/-- Embeds client.clear of src/unnamed/part_000 lines 200-203. -/
def clear2 (table : JsVal) : Except TypeErr Call :=
  match assertName table ("Table name") with
  | .error e => .error e
  | .ok _ => .ok (Call.mk [table] .readwrite table .clearOp)

/-- Embeds client.count of src/unnamed/part_000 lines 205-208. -/
def count2 (table query : JsVal) : Except TypeErr Call :=
  match assertName table ("Table name") with
  | .error e => .error e
  | .ok _ => .ok (Call.mk [table] .readonly table (.countOp query))

/-- Embeds client.close of src/unnamed/part_000 line 204. -/
def close2 (db : JsVal) : Except TypeErr JsVal :=
  .ok db

/-- A declarative schema as the source receives it: an ordered mapping from
index name to the entry's argument array (Object.keys order). The arrays
are the caller's own mutable arrays. -/
abbrev Schema := List (String × List JsVal)

/-- Embeds the schema loop of upgrade.create, src/idb.js lines 74-79: for
each key of schema in order, unshift the key onto that entry's array in
place, then call createIndex with the mutated array spread as its argument
list. Returns the createIndex argument lists in order together with the
schema as the in-place mutation leaves it. -/
def createIndexLoop : Schema → List (List JsVal) × Schema
  | [] => ([], [])
  | (k, arr) :: rest =>
    let arr2 := JsVal.str k :: arr
    let r := createIndexLoop rest
    (arr2 :: r.1, (k, arr2) :: r.2)

/-- Everything one upgrade.create call hands the engine: the
createObjectStore arguments, the createIndex argument lists in order, and
the caller's schema as the call leaves it. -/
structure CreateResult where
  storeName : JsVal
  storeOptions : JsVal
  indexCalls : List (List JsVal)
  schemaAfter : Schema
  deriving DecidableEq, Repr

/-- Embeds upgrade.create of src/idb.js lines 72-81 at the call level:
createObjectStore(table, options) and then the index loop (a missing schema
is the empty loop); no validation. -/
def upgradeCreate1 (table options : JsVal) (schema : Schema) : CreateResult :=
  CreateResult.mk table options (createIndexLoop schema).1 (createIndexLoop schema).2

/-- Embeds upgrade.create of src/unnamed/part_000 lines 256-266: assertName
on the object store name, then the same calls as the first variant. -/
def upgradeCreate2 (table options : JsVal) (schema : Schema) :
    Except TypeErr CreateResult :=
  match assertName table ("Object store name") with
  | .error e => .error e
  | .ok _ =>
    .ok (CreateResult.mk table options (createIndexLoop schema).1 (createIndexLoop schema).2)

/-- Embeds upgrade.delete of src/idb.js lines 82-84: the
deleteObjectStore(table) call, no validation. -/
def upgradeDelete1 (table : JsVal) : Except TypeErr JsVal :=
  .ok table

/-- Embeds upgrade.delete of src/unnamed/part_000 lines 267-270. -/
def upgradeDelete2 (table : JsVal) : Except TypeErr JsVal :=
  match assertName table ("Object store name") with
  | .error e => .error e
  | .ok _ => .ok table

/-- A secondary index as the engine records it. -/
structure IndexDef where
  name : JsVal
  keyPath : JsVal
  options : JsVal
  deriving DecidableEq, Repr

/-- Modelled from the spec: the engine createIndex primitive records exactly
one secondary index per call, taking its name, field path and optional
constraint flags from its first, second and third argument (spec section
4.3); further arguments are ignored and a missing argument is undefined. -/
def interpIndexCall (args : List JsVal) : IndexDef :=
  IndexDef.mk (args.getD 0 .undef) (args.getD 1 .undef) (args.getD 2 .undef)

/-- The Record Collection one upgrade.create call leaves in the engine. -/
structure CreatedStore where
  name : JsVal
  options : JsVal
  indexes : List IndexDef
  deriving DecidableEq, Repr

/-- One upgrade.create call of variant 1 interpreted by the engine model:
the created collection with its secondary indexes. -/
def runUpgradeCreate (table options : JsVal) (schema : Schema) : CreatedStore :=
  CreatedStore.mk (upgradeCreate1 table options schema).storeName
    (upgradeCreate1 table options schema).storeOptions
    ((upgradeCreate1 table options schema).indexCalls.map interpIndexCall)

/-- The arguments idb.open hands to indexedDB.open together with the
upgrade callback it will use. -/
structure OpenCall where
  name : JsVal
  version : JsVal
  callback : JsVal
  deriving DecidableEq, Repr

/-- The default upgrade callback: both variants default to a callback that
does nothing and returns undefined. -/
def noopFn : JsVal := .fnVal 0

def isFunction (v : JsVal) : Bool :=
  match v with
  | .fnVal _ => true
  | _ => false

/-- Embeds the argument handling of idb.open, src/idb.js lines 89-94:
version defaults to 1 when omitted and the callback to a noop; when version
is a function it becomes the callback and version falls back to 1; then
indexedDB.open(name, version) is issued with no name validation. -/
def open1 (name version fn : JsVal) : Except TypeErr OpenCall :=
  let v0 := if version = JsVal.undef then JsVal.num 1 else version
  let f0 := if fn = JsVal.undef then noopFn else fn
  if isFunction v0 then .ok (OpenCall.mk name (JsVal.num 1) v0)
  else .ok (OpenCall.mk name v0 f0)

/-- Embeds the argument handling of idb.open of the second variant,
src/unnamed/part_000 lines 279-287: same defaulting, then assertName on the
database name before indexedDB.open. -/
def open2 (name version fn : JsVal) : Except TypeErr OpenCall :=
  let v0 := if version = JsVal.undef then JsVal.num 1 else version
  let f0 := if fn = JsVal.undef then noopFn else fn
  let c := if isFunction v0 then OpenCall.mk name (JsVal.num 1) v0
    else OpenCall.mk name v0 f0
  match assertName name ("Database name") with
  | .error e => .error e
  | .ok _ => .ok c

/-- Embeds idb.delete of src/idb.js lines 109-111: the
indexedDB.deleteDatabase(name) call, promisified, no validation. -/
def deleteDb1 (name : JsVal) : Except TypeErr JsVal :=
  .ok name

/-- Embeds idb.delete of src/unnamed/part_000 lines 275-278. -/
def deleteDb2 (name : JsVal) : Except TypeErr JsVal :=
  match assertName name ("Database name") with
  | .error e => .error e
  | .ok _ => .ok name

theorem assertName_fails (v : JsVal) (label : String)
    (h : isNonEmptyStr v = false) :
    assertName v label = .error (.typeError (label ++ " must be a non-empty string")) := by
  cases v with
  | str s =>
    simp [isNonEmptyStr] at h
    simp [assertName, h]
  | _ => rfl

theorem assertName_ok (v : JsVal) (label : String)
    (h : isNonEmptyStr v = true) :
    assertName v label = .ok () := by
  cases v with
  | str s =>
    simp [isNonEmptyStr] at h
    simp [assertName, h]
  | _ => simp [isNonEmptyStr] at h

theorem createIndexLoop_calls (schema : Schema) :
    (createIndexLoop schema).1 = schema.map (fun e => JsVal.str e.1 :: e.2) := by
  induction schema with
  | nil => rfl
  | cons e rest ih => simp [createIndexLoop, ih]

theorem createIndexLoop_schema (schema : Schema) :
    (createIndexLoop schema).2 = schema.map (fun e => (e.1, JsVal.str e.1 :: e.2)) := by
  induction schema with
  | nil => rfl
  | cons e rest ih => simp [createIndexLoop, ih]

/-- C5: upgrade.create(name, options, schema) creates one collection with
that name and those primary-key options, and for each schema entry exactly
one secondary index whose name is the entry's key, whose field path is the
entry array's first element and whose constraint flags are its optional
second element. -/
theorem upgrade_create_builds_store_and_indexes (table options : JsVal)
    (schema : Schema) :
    (runUpgradeCreate table options schema).name = table ∧
    (runUpgradeCreate table options schema).options = options ∧
    (runUpgradeCreate table options schema).indexes =
      schema.map (fun e =>
        IndexDef.mk (JsVal.str e.1) (e.2.getD 0 JsVal.undef) (e.2.getD 1 JsVal.undef)) := by
  refine ⟨rfl, rfl, ?_⟩
  show ((upgradeCreate1 table options schema).indexCalls.map interpIndexCall) = _
  simp only [upgradeCreate1, createIndexLoop_calls, List.map_map]
  apply List.map_congr_left
  intro e _
  simp [interpIndexCall]

/-- C9: upgrade.create mutates the caller's schema in place, leaving every
entry array with the index name prepended at position zero, and a second
create call fed the mutated schema issues index calls whose field-path
argument is the index's own name (shifted, wrong arguments). -/
theorem upgrade_create_mutates_schema_in_place (t1 o1 t2 o2 : JsVal)
    (schema : Schema) :
    (upgradeCreate1 t1 o1 schema).schemaAfter =
      schema.map (fun e => (e.1, JsVal.str e.1 :: e.2)) ∧
    (upgradeCreate1 t2 o2 (upgradeCreate1 t1 o1 schema).schemaAfter).indexCalls.map
        interpIndexCall =
      schema.map (fun e =>
        IndexDef.mk (JsVal.str e.1) (JsVal.str e.1) (e.2.getD 0 JsVal.undef)) := by
  constructor
  · show (createIndexLoop schema).2 = _
    exact createIndexLoop_schema schema
  · show ((createIndexLoop (createIndexLoop schema).2).1.map interpIndexCall) = _
    simp only [createIndexLoop_schema, createIndexLoop_calls, List.map_map]
    apply List.map_congr_left
    intro e _
    simp [interpIndexCall]

/-- C4 counterexample: client.select of the first variant makes its engine
call with an empty table name without any synchronous TypeError, and
client.selectIndex of the validating variant makes its engine call with an
empty index name without any synchronous TypeError, so name validation is
neither present in every operation nor applied to index names. -/
theorem name_validation_not_universal_cex :
    select1 (JsVal.str "") (JsVal.num 1) =
      .ok (Call.mk [JsVal.str ""] .readonly (JsVal.str "") (.get (JsVal.num 1))) ∧
    selectIndex2 (JsVal.str "t") (JsVal.str "") (JsVal.num 1) =
      .ok (Call.mk [JsVal.str "t"] .readonly (JsVal.str "t")
        (.indexGet (JsVal.str "") (JsVal.num 1))) := by
  exact ⟨rfl, rfl⟩

/-- C4 amended: only the second module variant validates, and only its
collection, object-store and database name arguments: for every value that
is not a non-empty string, each such variant-2 operation throws a
synchronous TypeError before any engine call; the first variant makes the
engine call unvalidated, and variant 2 passes the index name of selectIndex
to the engine unchecked. -/
theorem name_validation_variant2_only
    (name key value query cnt index options version fn table : JsVal)
    (schema : Schema)
    (h : isNonEmptyStr name = false) (ht : isNonEmptyStr table = true) :
    (select2 name key =
        .error (.typeError ("Table name must be a non-empty string")) ∧
      selectAll2 name query cnt =
        .error (.typeError ("Table name must be a non-empty string")) ∧
      selectAllKeys2 name query cnt =
        .error (.typeError ("Table name must be a non-empty string")) ∧
      selectIndex2 name index key =
        .error (.typeError ("Table name must be a non-empty string")) ∧
      delete2 name key =
        .error (.typeError ("Table name must be a non-empty string")) ∧
      insert2 name value key =
        .error (.typeError ("Table name must be a non-empty string")) ∧
      update2 name value key =
        .error (.typeError ("Table name must be a non-empty string")) ∧
      clear2 name =
        .error (.typeError ("Table name must be a non-empty string")) ∧
      count2 name query =
        .error (.typeError ("Table name must be a non-empty string")) ∧
      upgradeCreate2 name options schema =
        .error (.typeError ("Object store name must be a non-empty string")) ∧
      upgradeDelete2 name =
        .error (.typeError ("Object store name must be a non-empty string")) ∧
      deleteDb2 name =
        .error (.typeError ("Database name must be a non-empty string")) ∧
      open2 name version fn =
        .error (.typeError ("Database name must be a non-empty string"))) ∧
    select1 name key = .ok (Call.mk [name] .readonly name (.get key)) ∧
    selectIndex2 table name key =
      .ok (Call.mk [table] .readonly table (.indexGet name key)) := by
  refine ⟨⟨?_, ?_, ?_, ?_, ?_, ?_, ?_, ?_, ?_, ?_, ?_, ?_, ?_⟩, rfl, ?_⟩
  · simp [select2, assertName_fails name _ h]
  · simp [selectAll2, assertName_fails name _ h]
  · simp [selectAllKeys2, assertName_fails name _ h]
  · simp [selectIndex2, assertName_fails name _ h]
  · simp [delete2, assertName_fails name _ h]
  · simp [insert2, assertName_fails name _ h]
  · simp [update2, assertName_fails name _ h]
  · simp [clear2, assertName_fails name _ h]
  · simp [count2, assertName_fails name _ h]
  · simp [upgradeCreate2, assertName_fails name _ h]
  · simp [upgradeDelete2, assertName_fails name _ h]
  · simp [deleteDb2, assertName_fails name _ h]
  · simp [open2, assertName_fails name _ h]
  · simp [selectIndex2, assertName_ok table _ ht]

theorem name_validation_variant2_only_witness :
    isNonEmptyStr (JsVal.str "") = false ∧
    isNonEmptyStr (JsVal.str "t") = true ∧
    select2 (JsVal.str "") (JsVal.num 1) =
      .error (.typeError ("Table name must be a non-empty string")) ∧
    selectIndex2 (JsVal.str "t") (JsVal.str "") (JsVal.num 1) =
      .ok (Call.mk [JsVal.str "t"] .readonly (JsVal.str "t")
        (.indexGet (JsVal.str "") (JsVal.num 1))) :=
  ⟨by decide, by decide,
    (name_validation_variant2_only (JsVal.str "") (JsVal.num 1) JsVal.undef
      JsVal.undef JsVal.undef JsVal.undef JsVal.undef JsVal.undef JsVal.undef
      (JsVal.str "t") [] (by decide) (by decide)).1.1,
    (name_validation_variant2_only (JsVal.str "") (JsVal.num 1) JsVal.undef
      JsVal.undef JsVal.undef JsVal.undef JsVal.undef JsVal.undef JsVal.undef
      (JsVal.str "t") [] (by decide) (by decide)).2.2⟩

/-- C10: invoked with valid non-empty-string names, the two module variants
make the same engine calls with the same arguments, and their promisify and
open notification handlers settle the returned promises identically; they
differ only in the synchronous name validation the second variant adds. -/
theorem variants_agree_on_valid_names
    (table index key value query cnt options name version fn db : JsVal)
    (schema : Schema)
    (ht : isNonEmptyStr table = true) (hn : isNonEmptyStr name = true) :
    select1 table key = select2 table key ∧
    selectAll1 table query cnt = selectAll2 table query cnt ∧
    selectAllKeys1 table query cnt = selectAllKeys2 table query cnt ∧
    selectIndex1 table index key = selectIndex2 table index key ∧
    delete1 table key = delete2 table key ∧
    insert1 table value key = insert2 table value key ∧
    update1 table value key = update2 table value key ∧
    clear1 table = clear2 table ∧
    count1 table query = count2 table query ∧
    close1 db = close2 db ∧
    Except.ok (upgradeCreate1 table options schema) = upgradeCreate2 table options schema ∧
    upgradeDelete1 table = upgradeDelete2 table ∧
    open1 name version fn = open2 name version fn ∧
    deleteDb1 name = deleteDb2 name ∧
    (∀ (s : PState JsVal JsVal) (ev : OpenEv), openStep s ev = openStep2 s ev) ∧
    (∀ (α ε : Type) (request : Request α ε) (s : PState α ε) (ev : ReqEv),
      promisifyStep request s ev = promisifyStep2 request s ev) := by
  refine ⟨?_, ?_, ?_, ?_, ?_, ?_, ?_, ?_, ?_, rfl, ?_, ?_, ?_, ?_, ?_, ?_⟩
  · simp [select1, select2, assertName_ok table _ ht]
  · simp [selectAll1, selectAll2, assertName_ok table _ ht]
  · simp [selectAllKeys1, selectAllKeys2, assertName_ok table _ ht]
  · simp [selectIndex1, selectIndex2, assertName_ok table _ ht]
  · simp [delete1, delete2, assertName_ok table _ ht]
  · simp [insert1, insert2, assertName_ok table _ ht]
  · simp [update1, update2, assertName_ok table _ ht]
  · simp [clear1, clear2, assertName_ok table _ ht]
  · simp [count1, count2, assertName_ok table _ ht]
  · simp [upgradeCreate1, upgradeCreate2, assertName_ok table _ ht]
  · simp [upgradeDelete1, upgradeDelete2, assertName_ok table _ ht]
  · simp only [open1, open2, assertName_ok name _ hn]
    split <;> split <;> rfl
  · simp [deleteDb1, deleteDb2, assertName_ok name _ hn]
  · intro s ev
    cases ev with
    | upgradeneeded d o => cases o <;> rfl
    | _ => rfl
  · intro α ε request s ev
    cases ev <;> rfl

theorem variants_agree_on_valid_names_witness :
    isNonEmptyStr (JsVal.str "t") = true ∧
    select1 (JsVal.str "t") (JsVal.num 1) = select2 (JsVal.str "t") (JsVal.num 1) :=
  ⟨by decide,
    (variants_agree_on_valid_names (JsVal.str "t") JsVal.undef (JsVal.num 1)
      JsVal.undef JsVal.undef JsVal.undef JsVal.undef (JsVal.str "t")
      JsVal.undef JsVal.undef JsVal.undef [] (by decide) (by decide)).1⟩

end Idb
